import Mathlib

/-!
Shallow embedding of `src/api/analysis.py` (trade-smart).

Numbers are modelled as exact rationals (`ℚ`); the Python code computes with
IEEE doubles via pandas/numpy, and the arithmetic claims of the spec are settled in
this exact model.  A pandas `DataFrame` is a list of OHLCV bars plus the
columns that the analysis appends in place (`df["MMA9"] = ...` mutates the
argument), so `calculate_setup_conditions` returns the updated frame as its
first component, modelling the in-place mutation.  The Python call `round(x, 2)`
(round-half-to-even on the scaled value) is `round2`; `str.replace` with
pattern ".SA" and empty replacement is `replace_SA`.
-/

namespace TradeSmart

/-- Configuration constant `IBOV_TICKERS` from the source. -/
def IBOV_TICKERS : List String := ["PETR4.SA"]

/-- Configuration constant `MMA_SHORT = 9`. -/
def MMA_SHORT : ℕ := 9

/-- Configuration constant `MMA_LONG = 20`. -/
def MMA_LONG : ℕ := 20

/-- Configuration constant `THRESHOLD_PROXIMITY = 0.015`. -/
def THRESHOLD_PROXIMITY : ℚ := 0.015

/-- One daily OHLCV bar (a row of the fetched dataframe). -/
structure PriceBar where
  openPrice : ℚ
  high : ℚ
  low : ℚ
  close : ℚ
  volume : ℚ
deriving DecidableEq, Repr

/-- A pandas dataframe: the OHLCV rows plus any columns the analysis appended
(`extraColumns` is empty for a freshly fetched frame; each appended column is a
name and one optional value per row, `none` standing for NaN). -/
structure DataFrame where
  bars : List PriceBar
  extraColumns : List (String × List (Option ℚ)) := []
deriving DecidableEq, Repr

/-- The `Close` column of a dataframe, chronological, most recent last. -/
def closesOf (df : DataFrame) : List ℚ := df.bars.map PriceBar.close

/-- The column `xs.rolling(window=w).mean()`: entry `i` is the mean of the `w` values
ending at index `i`, or NaN (`none`) when fewer than `w` values are available. -/
def rollingMean (w : ℕ) (xs : List ℚ) : List (Option ℚ) :=
  (List.range xs.length).map fun i =>
    if w ≤ i + 1 then some (((xs.take (i + 1)).drop (i + 1 - w)).sum / (w : ℚ)) else none

/-- The trend strings produced by the source: "Alta", "Baixa", "Lateral",
"Indefinida", "Erro" (Up, Down, Sideways, Undefined, Error). -/
inductive Trend
  | Alta
  | Baixa
  | Lateral
  | Indefinida
  | Erro
deriving DecidableEq, Repr

/-- The result dictionary built by `calculate_setup_conditions` (and by the
error placeholder in `analyze_ibov_stocks`).  Every price field is an
`Option ℚ` because the placeholder and the level fields use Python `None`. -/
structure AnalysisResult where
  ticker : String
  current_price : Option ℚ
  mms9 : Option ℚ
  mms20 : Option ℚ
  trend : Trend
  is_setup_candidate : Bool
  analysis_time : String
  entry_price : Option ℚ
  target_price : Option ℚ
  stop_loss_price : Option ℚ
deriving DecidableEq, Repr

/-- The Python `round` builtin for floats: round half to even. -/
def pyRound (x : ℚ) : ℤ :=
  if Int.fract x < 1 / 2 then ⌊x⌋
  else if 1 / 2 < Int.fract x then ⌊x⌋ + 1
  else if ⌊x⌋ % 2 = 0 then ⌊x⌋ else ⌊x⌋ + 1

/-- The Python call `round(x, 2)`. -/
def round2 (x : ℚ) : ℚ := (pyRound (x * 100) : ℚ) / 100

/-- The Python call `ticker.replace(".SA", "")`: drop every (non-overlapping,
left-to-right) occurrence of `".SA"`. -/
def replaceSAChars : List Char → List Char
  | '.' :: 'S' :: 'A' :: rest => replaceSAChars rest
  | c :: rest => c :: replaceSAChars rest
  | [] => []

/-- The call `ticker.replace(".SA", "")` on strings. -/
def replace_SA (s : String) : String := ⟨replaceSAChars s.data⟩

/-- The phrase used by the spec, "with the .SA suffix removed": drop a final `".SA"`
if present, leave the string alone otherwise. -/
def stripSuffixSA (s : String) : String :=
  if s.data.drop (s.data.length - 3) = ['.', 'S', 'A'] then
    ⟨s.data.take (s.data.length - 3)⟩
  else s

/-- The error message returned for fewer than `MMA_LONG` rows. -/
def insufficientMsg : String := "Dados insuficientes ou insuficientes para MMA20"

/-- The row value `latest["Close"]`: the most recent close. -/
def current_price_of (closes : List ℚ) : ℚ := closes.getD (closes.length - 1) 0

/-- The row value `latest["MMA9"]`: last entry of the 9-bar rolling-mean column
(a NaN entry reads as the junk value 0; under the length guard of the caller it
is never NaN). -/
def mms9_of (closes : List ℚ) : ℚ :=
  ((rollingMean MMA_SHORT closes).getD (closes.length - 1) none).getD 0

/-- The row value `latest["MMA20"]`: last entry of the 20-bar rolling-mean column. -/
def mms20_of (closes : List ℚ) : ℚ :=
  ((rollingMean MMA_LONG closes).getD (closes.length - 1) none).getD 0

/-- The row value `df.iloc[-5]["MMA20"]`: the 20-bar rolling mean at the fifth row from the
end (index `len - 5`). -/
def mms20_past_of (closes : List ℚ) : ℚ :=
  ((rollingMean MMA_LONG closes).getD (closes.length - 5) none).getD 0

/-- Step 2 of the source: trend classification.  Requires
`len(df) >= MMA_LONG + 5`; otherwise "Indefinida". -/
def trend_of (closes : List ℚ) : Trend :=
  if MMA_LONG + 5 ≤ closes.length then
    if mms20_past_of closes * 1.002 < mms20_of closes then .Alta
    else if mms20_of closes < mms20_past_of closes * 0.998 then .Baixa
    else .Lateral
  else .Indefinida

/-- Step 3 of the source: `abs(current_price - mms20) / mms20 <= 0.015`.
When `mms20 = 0` the IEEE quotient is `inf` or `nan` and the comparison is
false either way, so the zero denominator is guarded explicitly. -/
def is_close_to_mms20_of (closes : List ℚ) : Bool :=
  if mms20_of closes = 0 then false
  else decide (|current_price_of closes - mms20_of closes| / mms20_of closes
                 ≤ THRESHOLD_PROXIMITY)

/-- Step 4 of the source: `is_close_to_mms20 and trend != "Lateral"`. -/
def is_setup_candidate_of (closes : List ℚ) : Bool :=
  is_close_to_mms20_of closes && decide (trend_of closes ≠ .Lateral)

/-- The entry/target/stop levels, including the final rounding block.  In
Python, `if entry_price:` is false both for `None` and for `0.0`, so a zero entry
skips the rounding (observably identical, since every level is then 0). -/
def levels_of (closes : List ℚ) : Option ℚ × Option ℚ × Option ℚ :=
  if is_setup_candidate_of closes then
    let raw : Option ℚ × Option ℚ × Option ℚ :=
      if trend_of closes = .Alta then
        let entry := mms9_of closes * 1.01
        let distance := entry * 0.05
        (some entry, some (entry + distance), some (entry - distance))
      else if trend_of closes = .Baixa then
        let entry := mms9_of closes * 0.99
        let distance := entry * 0.05
        (some entry, some (entry - distance), some (entry + distance))
      else (none, none, none)
    match raw with
    | (some e, t, s) =>
        if e ≠ 0 then (some (round2 e), t.map round2, s.map round2)
        else (some e, t, s)
    | r => r
  else (none, none, none)

/-- The function `calculate_setup_conditions(df, ticker)`: returns the (mutated) frame, the
result dictionary or `None`, and the error string or `None`.  `analysis_time`
is the wall-clock timestamp `now`, passed explicitly. -/
def calculate_setup_conditions (df : DataFrame) (ticker now : String) :
    DataFrame × Option AnalysisResult × Option String :=
  let closes := closesOf df
  if closes.length < MMA_LONG then
    (df, none, some insufficientMsg)
  else
    ({ df with
        extraColumns := df.extraColumns ++
          [("MMA9", rollingMean MMA_SHORT closes),
           ("MMA20", rollingMean MMA_LONG closes)] },
     some
       { ticker := replace_SA ticker
         current_price := some (round2 (current_price_of closes))
         mms9 := some (round2 (mms9_of closes))
         mms20 := some (round2 (mms20_of closes))
         trend := trend_of closes
         is_setup_candidate := is_setup_candidate_of closes
         analysis_time := now
         entry_price := (levels_of closes).1
         target_price := (levels_of closes).2.1
         stop_loss_price := (levels_of closes).2.2 },
     none)

/-- Outcome of `yf.Ticker(t).history(...)` together with anything the `try`
block may raise: either an exception, or a fetched dataframe. -/
inductive FetchOutcome
  | raises
  | data (df : DataFrame)
deriving DecidableEq

/-- The placeholder appended when the `try` block raises. -/
def errorPlaceholder (ticker now : String) : AnalysisResult :=
  { ticker := replace_SA ticker
    current_price := some 0
    mms9 := some 0
    mms20 := some 0
    trend := .Erro
    is_setup_candidate := false
    analysis_time := now
    entry_price := none
    target_price := none
    stop_loss_price := none }

/-- The per-ticker loop body of `analyze_ibov_stocks`, generalised over the
ticker list: a raised exception appends the placeholder, an empty frame raises
`ValueError` (caught, placeholder), an insufficient-data result is only logged
(nothing appended), and a computed result is appended. -/
def run_batch (tickers : List String) (fetch : String → FetchOutcome)
    (now : String) : List AnalysisResult :=
  match tickers with
  | [] => []
  | ticker :: rest =>
    (match fetch ticker with
     | .raises => [errorPlaceholder ticker now]
     | .data df =>
       if df.bars.isEmpty then [errorPlaceholder ticker now]
       else
         match (calculate_setup_conditions df ticker now).2.1 with
         | some result => [result]
         | none => []) ++ run_batch rest fetch now

/-- The function `analyze_ibov_stocks()`: the batch over the configured ticker list. -/
def analyze_ibov_stocks (fetch : String → FetchOutcome) (now : String) :
    List AnalysisResult :=
  run_batch IBOV_TICKERS fetch now

/-- The arithmetic mean of the last `w` entries of `xs` (used to state the
short/long moving average wording of the spec directly on the input closes). -/
def meanLast (w : ℕ) (xs : List ℚ) : ℚ := ((xs.drop (xs.length - w)).sum) / (w : ℚ)

/-- Bars with the given closes (open/high/low equal to close, zero volume). -/
def mkBars (closes : List ℚ) : List PriceBar :=
  closes.map fun c => { openPrice := c, high := c, low := c, close := c, volume := 0 }

/-- A fresh dataframe with the given closes. -/
def mkDF (closes : List ℚ) : DataFrame := { bars := mkBars closes }

/-! ### Concrete fixtures -/

/-- Twenty bars, all closes 100. -/
def closes20 : List ℚ :=
  [100, 100, 100, 100, 100, 100, 100, 100, 100, 100,
   100, 100, 100, 100, 100, 100, 100, 100, 100, 100]

def df20 : DataFrame := mkDF closes20

/-- Same bars as `df20` except for the volume column. -/
def df20v : DataFrame :=
  { bars := closes20.map fun c =>
      { openPrice := c, high := c, low := c, close := c, volume := 7 } }

/-- Twenty-five bars: 20 closes at 100 followed by 5 closes at 102 (an "Alta" setup
candidate: the 20-bar MA rises more than 0.2% over the comparison window and
the last close is within 1.5% of it). -/
def closes25 : List ℚ :=
  [100, 100, 100, 100, 100, 100, 100, 100, 100, 100,
   100, 100, 100, 100, 100, 100, 100, 100, 100, 100,
   102, 102, 102, 102, 102]

def df25 : DataFrame := mkDF closes25

/-- Twenty-five bars: 20 closes at 100 followed by 5 closes at 98.2 (a "Baixa" setup
candidate). -/
def closes25b : List ℚ :=
  [100, 100, 100, 100, 100, 100, 100, 100, 100, 100,
   100, 100, 100, 100, 100, 100, 100, 100, 100, 100,
   98.2, 98.2, 98.2, 98.2, 98.2]

def df25b : DataFrame := mkDF closes25b

/-- Twenty-five bars, all closes 100 except a spike to 200 at index 20 (the spike lies
in the rolling window of the fifth-from-last bar but not in the window of the
bar 5 positions before the last). -/
def closesCex : List ℚ :=
  [100, 100, 100, 100, 100, 100, 100, 100, 100, 100,
   100, 100, 100, 100, 100, 100, 100, 100, 100, 100,
   200, 100, 100, 100, 100]

def dfCex : DataFrame := mkDF closesCex

/-- The worked example of the spec: 25 closes rising linearly from 10.00 to 22.00
in steps of 0.5. -/
def closesSpecExample : List ℚ :=
  [10, 10.5, 11, 11.5, 12, 12.5, 13, 13.5, 14, 14.5,
   15, 15.5, 16, 16.5, 17, 17.5, 18, 18.5, 19, 19.5,
   20, 20.5, 21, 21.5, 22]

def dfSpecExample : DataFrame := mkDF closesSpecExample

/-- Twenty bars with closes 1 through 20. -/
def closesRamp : List ℚ :=
  [1, 2, 3, 4, 5, 6, 7, 8, 9, 10, 11, 12, 13, 14, 15, 16, 17, 18, 19, 20]

def dfRamp : DataFrame := mkDF closesRamp

/-- A 3-ticker batch in which only the middle fetch raises. -/
def tickers3 : List String := ["AAA.SA", "BBB.SA", "CCC.SA"]

def fetch3 : String → FetchOutcome :=
  fun t => if t = "BBB.SA" then FetchOutcome.raises else FetchOutcome.data df20

/-! ### Bridging lemmas -/

lemma closesOf_length (df : DataFrame) : (closesOf df).length = df.bars.length :=
  List.length_map _ _

lemma rollingMean_getD (w : ℕ) (xs : List ℚ) (i : ℕ) (h : i < xs.length) :
    (rollingMean w xs).getD i none =
      if w ≤ i + 1 then some (((xs.take (i + 1)).drop (i + 1 - w)).sum / (w : ℚ))
      else none := by
  unfold rollingMean
  rw [List.getD_eq_getElem?_getD, List.getElem?_map, List.getElem?_range h]
  rfl

lemma mms9_of_eq (xs : List ℚ) (h : 9 ≤ xs.length) : mms9_of xs = meanLast 9 xs := by
  unfold mms9_of meanLast MMA_SHORT
  rw [rollingMean_getD 9 xs (xs.length - 1) (by omega)]
  have h1 : xs.length - 1 + 1 = xs.length := by omega
  rw [h1, if_pos h, xs.take_length, Option.getD_some]

lemma mms20_of_eq (xs : List ℚ) (h : 20 ≤ xs.length) :
    mms20_of xs = meanLast 20 xs := by
  unfold mms20_of meanLast MMA_LONG
  rw [rollingMean_getD 20 xs (xs.length - 1) (by omega)]
  have h1 : xs.length - 1 + 1 = xs.length := by omega
  rw [h1, if_pos h, xs.take_length, Option.getD_some]

lemma mms20_past_of_eq (xs : List ℚ) (h : 25 ≤ xs.length) :
    mms20_past_of xs = meanLast 20 (xs.take (xs.length - 4)) := by
  unfold mms20_past_of meanLast MMA_LONG
  rw [rollingMean_getD 20 xs (xs.length - 5) (by omega)]
  have h1 : xs.length - 5 + 1 = xs.length - 4 := by omega
  have h2 : (xs.take (xs.length - 4)).length = xs.length - 4 := by
    rw [List.length_take]; omega
  rw [h1, if_pos (by omega), Option.getD_some, h2]

lemma calc_eq_none (df : DataFrame) (t now : String) (h : df.bars.length < MMA_LONG) :
    calculate_setup_conditions df t now = (df, none, some insufficientMsg) := by
  have hl : (closesOf df).length < MMA_LONG := by rw [closesOf_length]; exact h
  simp only [calculate_setup_conditions, if_pos hl]

lemma calc_eq_some (df : DataFrame) (t now : String) (h : MMA_LONG ≤ df.bars.length) :
    calculate_setup_conditions df t now =
      ({ df with
          extraColumns := df.extraColumns ++
            [("MMA9", rollingMean MMA_SHORT (closesOf df)),
             ("MMA20", rollingMean MMA_LONG (closesOf df))] },
       some
         { ticker := replace_SA t
           current_price := some (round2 (current_price_of (closesOf df)))
           mms9 := some (round2 (mms9_of (closesOf df)))
           mms20 := some (round2 (mms20_of (closesOf df)))
           trend := trend_of (closesOf df)
           is_setup_candidate := is_setup_candidate_of (closesOf df)
           analysis_time := now
           entry_price := (levels_of (closesOf df)).1
           target_price := (levels_of (closesOf df)).2.1
           stop_loss_price := (levels_of (closesOf df)).2.2 },
       none) := by
  have hl : ¬ (closesOf df).length < MMA_LONG := by rw [closesOf_length]; omega
  simp only [calculate_setup_conditions, if_neg hl]

lemma calc_some_ticker (df : DataFrame) (t now : String) (r : AnalysisResult)
    (hr : (calculate_setup_conditions df t now).2.1 = some r) :
    r.ticker = replace_SA t := by
  by_cases h : df.bars.length < MMA_LONG
  · rw [calc_eq_none df t now h] at hr
    exact absurd hr (by simp)
  · rw [calc_eq_some df t now (by omega)] at hr
    cases hr
    rfl

lemma pyRound_eq_down (x : ℚ) (k : ℤ) (h1 : (k : ℚ) ≤ x) (h2 : x < (k : ℚ) + 1 / 2) :
    pyRound x = k := by
  have hf : ⌊x⌋ = k := by
    rw [Int.floor_eq_iff]
    refine ⟨h1, ?_⟩
    linarith
  have hfr : Int.fract x < 1 / 2 := by
    rw [Int.fract, hf]
    linarith
  rw [pyRound, if_pos hfr, hf]

lemma pyRound_eq_up (x : ℚ) (k : ℤ) (h1 : (k : ℚ) - 1 / 2 < x) (h2 : x < (k : ℚ)) :
    pyRound x = k := by
  have hf : ⌊x⌋ = k - 1 := by
    rw [Int.floor_eq_iff]
    push_cast
    constructor <;> linarith
  have hfr : 1 / 2 < Int.fract x := by
    rw [Int.fract, hf]
    push_cast
    linarith

  rw [pyRound, if_neg (by linarith), if_pos hfr, hf]
  omega

lemma round2_eq (x : ℚ) (k : ℤ) (h : pyRound (x * 100) = k) :
    round2 x = (k : ℚ) / 100 := by
  rw [round2, h]

lemma round2_zero : round2 0 = 0 := by
  rw [round2_eq 0 0 (pyRound_eq_down _ 0 (by norm_num) (by norm_num))]
  norm_num

lemma closesOf_mkDF (cs : List ℚ) : closesOf (mkDF cs) = cs := by
  simp [closesOf, mkDF, mkBars, List.map_map]
  exact List.map_id cs

/-! ### Claims -/

/-- Claim C4 (confirmed): for every input bar sequence of fewer than 20 bars
(including the empty one) the analyzer returns the insufficient-data sentinel,
produces no `AnalysisResult`, and does not throw (the embedding is total). -/
theorem C4_insufficient_data (df : DataFrame) (t now : String)
    (h : df.bars.length < 20) :
    calculate_setup_conditions df t now = (df, none, some insufficientMsg) :=
  calc_eq_none df t now h

theorem C4_insufficient_data_witness :
    (mkDF []).bars.length < 20 ∧
      calculate_setup_conditions (mkDF []) "PETR4.SA" "t0" =
        (mkDF [], none, some insufficientMsg) :=
  ⟨by decide, C4_insufficient_data (mkDF []) "PETR4.SA" "t0" (by decide)⟩

/-- Claim C7 (confirmed): on exactly 20 bars the reported long MA is the mean of
all 20 closes and the reported short MA is the mean of the last 9 closes, each
rounded to 2 decimals in the output. -/
theorem C7_ma_means (df : DataFrame) (t now : String) (h : df.bars.length = 20) :
    ((calculate_setup_conditions df t now).2.1.map AnalysisResult.mms20) =
        some (some (round2 ((closesOf df).sum / 20))) ∧
      ((calculate_setup_conditions df t now).2.1.map AnalysisResult.mms9) =
        some (some (round2 (((closesOf df).drop 11).sum / 9))) := by
  have hlen : (closesOf df).length = 20 := by rw [closesOf_length, h]
  have hM : MMA_LONG = 20 := rfl
  rw [calc_eq_some df t now (by omega)]
  constructor
  · simp only [Option.map_some']
    rw [mms20_of_eq _ (by omega), meanLast, hlen]
    norm_num
  · simp only [Option.map_some']
    rw [mms9_of_eq _ (by omega), meanLast, hlen]
    norm_num

theorem C7_ma_means_witness :
    dfRamp.bars.length = 20 ∧
      (((calculate_setup_conditions dfRamp "PETR4.SA" "t0").2.1.map
          AnalysisResult.mms20) =
        some (some (round2 ((closesOf dfRamp).sum / 20))) ∧
      ((calculate_setup_conditions dfRamp "PETR4.SA" "t0").2.1.map
          AnalysisResult.mms9) =
        some (some (round2 (((closesOf dfRamp).drop 11).sum / 9)))) :=
  ⟨by decide, C7_ma_means dfRamp "PETR4.SA" "t0" (by decide)⟩

/-- Claim C8 (confirmed): on at least 20 bars the internal proximity flag is
true exactly when `|current_close − long_ma| / long_ma ≤ 0.015` (the long MA
being nonzero, which the division in the claim presupposes). -/
theorem C8_proximity (df : DataFrame) (h20 : 20 ≤ df.bars.length)
    (hm : meanLast 20 (closesOf df) ≠ 0) :
    is_close_to_mms20_of (closesOf df) = true ↔
      |current_price_of (closesOf df) - meanLast 20 (closesOf df)| /
          meanLast 20 (closesOf df) ≤ THRESHOLD_PROXIMITY := by
  have h20' : 20 ≤ (closesOf df).length := by rw [closesOf_length]; omega
  rw [is_close_to_mms20_of, mms20_of_eq _ h20', if_neg hm]
  exact decide_eq_true_iff

lemma closesOf_df20 : closesOf df20 = closes20 := closesOf_mkDF closes20

lemma meanLast_df20 : meanLast 20 (closesOf df20) = 100 := by
  rw [closesOf_df20, meanLast]
  norm_num [closes20]

lemma current_price_df20 : current_price_of (closesOf df20) = 100 := by
  rw [closesOf_df20]
  rfl

/-- On 20–24 bars with the close within the proximity threshold, the internal
classification is: trend "Indefinida", candidate `true`, all levels `None`. -/
lemma candidate_undefined (df : DataFrame) (h20 : 20 ≤ df.bars.length)
    (h25 : df.bars.length < 25) (hm : meanLast 20 (closesOf df) ≠ 0)
    (hclose : |current_price_of (closesOf df) - meanLast 20 (closesOf df)| /
        meanLast 20 (closesOf df) ≤ THRESHOLD_PROXIMITY) :
    trend_of (closesOf df) = Trend.Indefinida ∧
      is_setup_candidate_of (closesOf df) = true ∧
      levels_of (closesOf df) = (none, none, none) := by
  have hM : MMA_LONG = 20 := rfl
  have h20' : 20 ≤ (closesOf df).length := by rw [closesOf_length]; omega
  have h25' : (closesOf df).length < 25 := by rw [closesOf_length]; omega
  have htrend : trend_of (closesOf df) = Trend.Indefinida := by
    rw [trend_of, if_neg (by omega)]
  have hclose' : is_close_to_mms20_of (closesOf df) = true := by
    rw [is_close_to_mms20_of, mms20_of_eq _ h20', if_neg hm]
    exact decide_eq_true hclose
  have hcand : is_setup_candidate_of (closesOf df) = true := by
    rw [is_setup_candidate_of, hclose', htrend]
    rfl
  refine ⟨htrend, hcand, ?_⟩
  simp [levels_of, hcand, htrend]

theorem C8_proximity_witness :
    (20 ≤ df20.bars.length) ∧ (meanLast 20 (closesOf df20) ≠ 0) ∧
      (is_close_to_mms20_of (closesOf df20) = true ↔
        |current_price_of (closesOf df20) - meanLast 20 (closesOf df20)| /
            meanLast 20 (closesOf df20) ≤ THRESHOLD_PROXIMITY) ∧
      current_price_of (closesOf df20) = 100 ∧
      meanLast 20 (closesOf df20) = 100 ∧
      |current_price_of (closesOf df20) - meanLast 20 (closesOf df20)| /
          meanLast 20 (closesOf df20) = 0 ∧
      is_close_to_mms20_of (closesOf df20) = true := by
  have hc : closesOf df20 = closes20 := closesOf_mkDF closes20
  have hcur : current_price_of (closesOf df20) = 100 := by rw [hc]; rfl
  have hmean : meanLast 20 (closesOf df20) = 100 := by
    rw [hc, meanLast]
    norm_num [closes20]
  have hm : meanLast 20 (closesOf df20) ≠ 0 := by rw [hmean]; norm_num
  have hiff := C8_proximity df20 (by decide) hm
  refine ⟨by decide, hm, hiff, hcur, hmean, by rw [hcur, hmean]; norm_num, ?_⟩
  rw [hiff, hcur, hmean]
  norm_num [THRESHOLD_PROXIMITY]

/-- Claim C9 (confirmed): on 20 to 24 bars with the current close within 1.5%
of the (nonzero) long MA, the result has trend "Indefinida",
`is_setup_candidate = true`, and null entry/target/stop. -/
theorem C9_undefined_candidate (df : DataFrame) (t now : String)
    (h20 : 20 ≤ df.bars.length) (h25 : df.bars.length < 25)
    (hm : meanLast 20 (closesOf df) ≠ 0)
    (hclose : |current_price_of (closesOf df) - meanLast 20 (closesOf df)| /
        meanLast 20 (closesOf df) ≤ THRESHOLD_PROXIMITY) :
    ((calculate_setup_conditions df t now).2.1.map fun r =>
        (r.trend, r.is_setup_candidate, r.entry_price, r.target_price,
          r.stop_loss_price)) =
      some (Trend.Indefinida, true, none, none, none) := by
  obtain ⟨htrend, hcand, hlev⟩ := candidate_undefined df h20 h25 hm hclose
  rw [calc_eq_some df t now h20]
  simp [htrend, hcand, hlev]

theorem C9_undefined_candidate_witness :
    (20 ≤ df20.bars.length) ∧ (df20.bars.length < 25) ∧
      (meanLast 20 (closesOf df20) ≠ 0) ∧
      (|current_price_of (closesOf df20) - meanLast 20 (closesOf df20)| /
          meanLast 20 (closesOf df20) ≤ THRESHOLD_PROXIMITY) ∧
      ((calculate_setup_conditions df20 "PETR4.SA" "t0").2.1.map fun r =>
          (r.trend, r.is_setup_candidate, r.entry_price, r.target_price,
            r.stop_loss_price)) =
        some (Trend.Indefinida, true, none, none, none) := by
  have hm : meanLast 20 (closesOf df20) ≠ 0 := by rw [meanLast_df20]; norm_num
  have hclose : |current_price_of (closesOf df20) - meanLast 20 (closesOf df20)| /
      meanLast 20 (closesOf df20) ≤ THRESHOLD_PROXIMITY := by
    rw [current_price_df20, meanLast_df20]
    norm_num [THRESHOLD_PROXIMITY]
  exact ⟨by decide, by decide, hm, hclose,
    C9_undefined_candidate df20 "PETR4.SA" "t0" (by decide) (by decide) hm hclose⟩

/-- Claim C2 (corrected): on at least 20 bars, `is_setup_candidate` is true iff
the proximity check succeeds and the classified trend is *not "Lateral"* — the
trend may also be "Indefinida" (20–24 bars), not only "Alta"/"Baixa" as the
claim stated. -/
theorem C2_candidate_rule (df : DataFrame) (t now : String)
    (h20 : 20 ≤ df.bars.length) (hm : meanLast 20 (closesOf df) ≠ 0) :
    (((calculate_setup_conditions df t now).2.1.map
        AnalysisResult.is_setup_candidate) = some true) ↔
      (|current_price_of (closesOf df) - meanLast 20 (closesOf df)| /
          meanLast 20 (closesOf df) ≤ THRESHOLD_PROXIMITY ∧
        ((calculate_setup_conditions df t now).2.1.map AnalysisResult.trend) ≠
          some Trend.Lateral) := by
  rw [calc_eq_some df t now h20]
  simp only [Option.map_some', Option.some.injEq, ne_eq]
  rw [is_setup_candidate_of, Bool.and_eq_true, is_close_to_mms20_of,
    mms20_of_eq _ (by rw [closesOf_length]; omega), if_neg hm]
  simp only [decide_eq_true_eq]

/-- The claim "candidate iff close ∧ trend ∈ {Up, Down}" fails on 20 bars of
constant closes: the code classifies trend "Indefinida" (neither Up nor Down)
yet sets `is_setup_candidate = true`. -/
theorem C2_candidate_rule_cex :
    ((calculate_setup_conditions df20 "PETR4.SA" "t0").2.1.map fun r =>
        (r.is_setup_candidate, r.trend)) = some (true, Trend.Indefinida) ∧
      Trend.Indefinida ≠ Trend.Alta ∧ Trend.Indefinida ≠ Trend.Baixa := by
  have hm : meanLast 20 (closesOf df20) ≠ 0 := by rw [meanLast_df20]; norm_num
  have hclose : |current_price_of (closesOf df20) - meanLast 20 (closesOf df20)| /
      meanLast 20 (closesOf df20) ≤ THRESHOLD_PROXIMITY := by
    rw [current_price_df20, meanLast_df20]
    norm_num [THRESHOLD_PROXIMITY]
  obtain ⟨htrend, hcand, -⟩ :=
    candidate_undefined df20 (by decide) (by decide) hm hclose
  refine ⟨?_, by decide, by decide⟩
  rw [calc_eq_some df20 "PETR4.SA" "t0" (by decide)]
  simp [htrend, hcand]

theorem C2_candidate_rule_witness :
    (20 ≤ df20.bars.length) ∧ (meanLast 20 (closesOf df20) ≠ 0) ∧
      ((((calculate_setup_conditions df20 "PETR4.SA" "t0").2.1.map
          AnalysisResult.is_setup_candidate) = some true) ↔
        (|current_price_of (closesOf df20) - meanLast 20 (closesOf df20)| /
            meanLast 20 (closesOf df20) ≤ THRESHOLD_PROXIMITY ∧
          ((calculate_setup_conditions df20 "PETR4.SA" "t0").2.1.map
              AnalysisResult.trend) ≠ some Trend.Lateral)) := by
  have hm : meanLast 20 (closesOf df20) ≠ 0 := by rw [meanLast_df20]; norm_num
  exact ⟨by decide, hm, C2_candidate_rule df20 "PETR4.SA" "t0" (by decide) hm⟩

/-- Claim C1 (corrected): on at least 25 bars the trend compares the current
long MA to the long MA of the *fifth-from-last* bar (`df.iloc[-5]`, four bars
before the current one — the last 20 of the first `n − 4` closes), not the MA
computed five bars earlier; thresholds ×1.002 / ×0.998 as stated, and 20–24
bars give "Indefinida". -/
theorem C1_trend_rule (df : DataFrame) (t now : String)
    (h : 20 ≤ df.bars.length) :
    ((calculate_setup_conditions df t now).2.1.map AnalysisResult.trend) =
      some (if 25 ≤ df.bars.length then
          (if meanLast 20 ((closesOf df).take (df.bars.length - 4)) * 1.002 <
                meanLast 20 (closesOf df) then Trend.Alta
           else if meanLast 20 (closesOf df) <
                meanLast 20 ((closesOf df).take (df.bars.length - 4)) * 0.998 then
             Trend.Baixa
           else Trend.Lateral)
        else Trend.Indefinida) := by
  have hM : MMA_LONG = 20 := rfl
  rw [calc_eq_some df t now h]
  simp only [Option.map_some', Option.some.injEq]
  rw [trend_of]
  by_cases h25 : 25 ≤ df.bars.length
  · rw [if_pos (by rw [closesOf_length]; omega), if_pos h25,
      mms20_of_eq _ (by rw [closesOf_length]; omega),
      mms20_past_of_eq _ (by rw [closesOf_length]; omega),
      closesOf_length]
  · rw [if_neg (by rw [closesOf_length]; omega), if_neg h25]

/-- The claim sentence "compare to the long MA computed 5 bars earlier" fails on
`dfCex`: the MA five bars back is 100, the current MA is 105, so the claim
demands trend Up (105 > 100 × 1.002), but the code compares against the MA of
the fifth-from-last bar (also 105) and classifies "Lateral". -/
theorem C1_trend_rule_cex :
    meanLast 20 ((closesOf dfCex).take (dfCex.bars.length - 5)) * 1.002 <
        meanLast 20 (closesOf dfCex) ∧
      ((calculate_setup_conditions dfCex "PETR4.SA" "t0").2.1.map
          AnalysisResult.trend) ≠ some Trend.Alta ∧
      ((calculate_setup_conditions dfCex "PETR4.SA" "t0").2.1.map
          AnalysisResult.trend) = some Trend.Lateral := by
  have hM : MMA_LONG = 20 := rfl
  have hc : closesOf dfCex = closesCex := closesOf_mkDF _
  have hlen : dfCex.bars.length = 25 := by decide
  have hpast5 : meanLast 20 (closesCex.take 20) = 100 := by
    rw [meanLast,
      show ((closesCex.take 20).drop ((closesCex.take 20).length - 20)) =
        [100, 100, 100, 100, 100, 100, 100, 100, 100, 100,
         100, 100, 100, 100, 100, 100, 100, 100, 100, 100] from rfl]
    norm_num [List.sum_cons]
  have hcur : meanLast 20 closesCex = 105 := by
    rw [meanLast,
      show (closesCex.drop (closesCex.length - 20)) =
        [100, 100, 100, 100, 100, 100, 100, 100, 100, 100,
         100, 100, 100, 100, 100, 200, 100, 100, 100, 100] from rfl]
    norm_num [List.sum_cons]
  have hpast4 : meanLast 20 (closesCex.take 21) = 105 := by
    rw [meanLast,
      show ((closesCex.take 21).drop ((closesCex.take 21).length - 20)) =
        [100, 100, 100, 100, 100, 100, 100, 100, 100, 100,
         100, 100, 100, 100, 100, 100, 100, 100, 100, 200] from rfl]
    norm_num [List.sum_cons]
  have htrend : ((calculate_setup_conditions dfCex "PETR4.SA" "t0").2.1.map
      AnalysisResult.trend) = some Trend.Lateral := by
    rw [calc_eq_some dfCex "PETR4.SA" "t0" (by omega)]
    simp only [Option.map_some', Option.some.injEq]
    rw [trend_of, if_pos (by rw [closesOf_length]; decide),
      mms20_of_eq _ (by rw [closesOf_length]; omega),
      mms20_past_of_eq _ (by rw [closesOf_length]; omega),
      closesOf_length, hlen, show (25 : ℕ) - 4 = 21 from rfl, hc, hcur, hpast4,
      if_neg (by norm_num), if_neg (by norm_num)]
  refine ⟨?_, ?_, htrend⟩
  · rw [hlen, show (25 : ℕ) - 5 = 20 from rfl, hc, hpast5, hcur]
    norm_num
  · rw [htrend]
    decide

theorem C1_trend_rule_witness :
    (20 ≤ dfSpecExample.bars.length) ∧
      ((calculate_setup_conditions dfSpecExample "PETR4.SA" "t0").2.1.map
          AnalysisResult.trend) = some Trend.Alta := by
  refine ⟨by decide, (C1_trend_rule dfSpecExample "PETR4.SA" "t0" (by decide)).trans ?_⟩
  have hc : closesOf dfSpecExample = closesSpecExample := closesOf_mkDF _
  have hlen : dfSpecExample.bars.length = 25 := by decide
  have hpast4 : meanLast 20 (closesSpecExample.take 21) = 61 / 4 := by
    rw [meanLast,
      show ((closesSpecExample.take 21).drop ((closesSpecExample.take 21).length - 20)) =
        [10.5, 11, 11.5, 12, 12.5, 13, 13.5, 14, 14.5,
         15, 15.5, 16, 16.5, 17, 17.5, 18, 18.5, 19, 19.5, 20] from rfl]
    norm_num [List.sum_cons]
  have hcur : meanLast 20 closesSpecExample = 69 / 4 := by
    rw [meanLast,
      show (closesSpecExample.drop (closesSpecExample.length - 20)) =
        [12.5, 13, 13.5, 14, 14.5, 15, 15.5, 16, 16.5, 17,
         17.5, 18, 18.5, 19, 19.5, 20, 20.5, 21, 21.5, 22] from rfl]
    norm_num [List.sum_cons]
  rw [hlen, show (25 : ℕ) - 4 = 21 from rfl, hc, hpast4, hcur,
    if_pos (by norm_num), if_pos (by norm_num)]

lemma levels_of_alta (closes : List ℚ) (hA : trend_of closes = Trend.Alta)
    (hC : is_setup_candidate_of closes = true) :
    levels_of closes =
      (some (round2 (mms9_of closes * 1.01)),
       some (round2 (mms9_of closes * 1.01 + mms9_of closes * 1.01 * 0.05)),
       some (round2 (mms9_of closes * 1.01 - mms9_of closes * 1.01 * 0.05))) := by
  by_cases he : mms9_of closes * 1.01 = 0
  · simp [levels_of, hC, hA, he, round2_zero]
  · simp [levels_of, hC, hA, he]

lemma levels_of_baixa (closes : List ℚ) (hB : trend_of closes = Trend.Baixa)
    (hC : is_setup_candidate_of closes = true) :
    levels_of closes =
      (some (round2 (mms9_of closes * 0.99)),
       some (round2 (mms9_of closes * 0.99 - mms9_of closes * 0.99 * 0.05)),
       some (round2 (mms9_of closes * 0.99 + mms9_of closes * 0.99 * 0.05))) := by
  by_cases he : mms9_of closes * 0.99 = 0
  · simp [levels_of, hC, hB, he, round2_zero]
  · simp [levels_of, hC, hB, he]

/-- Claim C6 (confirmed): for a setup candidate with trend "Alta",
entry = short_ma × 1.01, risk = entry × 0.05, target = entry + risk,
stop = entry − risk; with trend "Baixa", entry = short_ma × 0.99,
target = entry − risk, stop = entry + risk; each output level rounded to two
decimals (the rounding is applied to the unrounded entry and to the
target/stop computed from it). -/
theorem C6_levels (df : DataFrame) (t now : String) (h20 : 20 ≤ df.bars.length) :
    (trend_of (closesOf df) = Trend.Alta →
      is_setup_candidate_of (closesOf df) = true →
      ((calculate_setup_conditions df t now).2.1.map AnalysisResult.entry_price) =
          some (some (round2 (meanLast 9 (closesOf df) * 1.01))) ∧
        ((calculate_setup_conditions df t now).2.1.map AnalysisResult.target_price) =
          some (some (round2 (meanLast 9 (closesOf df) * 1.01 +
            meanLast 9 (closesOf df) * 1.01 * 0.05))) ∧
        ((calculate_setup_conditions df t now).2.1.map AnalysisResult.stop_loss_price) =
          some (some (round2 (meanLast 9 (closesOf df) * 1.01 -
            meanLast 9 (closesOf df) * 1.01 * 0.05)))) ∧
    (trend_of (closesOf df) = Trend.Baixa →
      is_setup_candidate_of (closesOf df) = true →
      ((calculate_setup_conditions df t now).2.1.map AnalysisResult.entry_price) =
          some (some (round2 (meanLast 9 (closesOf df) * 0.99))) ∧
        ((calculate_setup_conditions df t now).2.1.map AnalysisResult.target_price) =
          some (some (round2 (meanLast 9 (closesOf df) * 0.99 -
            meanLast 9 (closesOf df) * 0.99 * 0.05))) ∧
        ((calculate_setup_conditions df t now).2.1.map AnalysisResult.stop_loss_price) =
          some (some (round2 (meanLast 9 (closesOf df) * 0.99 +
            meanLast 9 (closesOf df) * 0.99 * 0.05)))) := by
  have h9 : mms9_of (closesOf df) = meanLast 9 (closesOf df) :=
    mms9_of_eq _ (by rw [closesOf_length]; omega)
  rw [calc_eq_some df t now h20]
  constructor
  · intro hA hC
    rw [← h9]
    simp [levels_of_alta _ hA hC]
  · intro hB hC
    rw [← h9]
    simp [levels_of_baixa _ hB hC]

lemma meanLast_closes25 : meanLast 20 closes25 = 201 / 2 := by
  rw [meanLast,
    show (closes25.drop (closes25.length - 20)) =
      [100, 100, 100, 100, 100, 100, 100, 100, 100, 100,
       100, 100, 100, 100, 100, 102, 102, 102, 102, 102] from rfl]
  norm_num [List.sum_cons]

lemma meanLast_closes25_past : meanLast 20 (closes25.take 21) = 1001 / 10 := by
  rw [meanLast,
    show ((closes25.take 21).drop ((closes25.take 21).length - 20)) =
      [100, 100, 100, 100, 100, 100, 100, 100, 100, 100,
       100, 100, 100, 100, 100, 100, 100, 100, 100, 102] from rfl]
  norm_num [List.sum_cons]

lemma trend_closes25 : trend_of closes25 = Trend.Alta := by
  rw [trend_of, if_pos (by decide), mms20_of_eq _ (by decide),
    mms20_past_of_eq _ (by decide), show closes25.length - 4 = 21 from rfl,
    meanLast_closes25, meanLast_closes25_past, if_pos (by norm_num)]

lemma candidate_closes25 : is_setup_candidate_of closes25 = true := by
  have hm0 : meanLast 20 closes25 ≠ 0 := by rw [meanLast_closes25]; norm_num
  have hprox : |current_price_of closes25 - meanLast 20 closes25| /
      meanLast 20 closes25 ≤ THRESHOLD_PROXIMITY := by
    rw [show current_price_of closes25 = 102 from rfl, meanLast_closes25]
    have habs : |(102 : ℚ) - 201 / 2| = 3 / 2 := by
      rw [show (102 : ℚ) - 201 / 2 = 3 / 2 by norm_num]
      exact abs_of_nonneg (by norm_num)
    rw [habs, THRESHOLD_PROXIMITY]
    norm_num
  have hb : is_close_to_mms20_of closes25 = true := by
    rw [is_close_to_mms20_of, mms20_of_eq _ (by decide), if_neg hm0]
    exact decide_eq_true hprox
  rw [is_setup_candidate_of, hb, trend_closes25]
  rfl

lemma meanLast_closes25b : meanLast 20 closes25b = 1991 / 20 := by
  rw [meanLast,
    show (closes25b.drop (closes25b.length - 20)) =
      [100, 100, 100, 100, 100, 100, 100, 100, 100, 100,
       100, 100, 100, 100, 100, 98.2, 98.2, 98.2, 98.2, 98.2] from rfl]
  norm_num [List.sum_cons]

lemma meanLast_closes25b_past : meanLast 20 (closes25b.take 21) = 9991 / 100 := by
  rw [meanLast,
    show ((closes25b.take 21).drop ((closes25b.take 21).length - 20)) =
      [100, 100, 100, 100, 100, 100, 100, 100, 100, 100,
       100, 100, 100, 100, 100, 100, 100, 100, 100, 98.2] from rfl]
  norm_num [List.sum_cons]

lemma trend_closes25b : trend_of closes25b = Trend.Baixa := by
  rw [trend_of, if_pos (by decide), mms20_of_eq _ (by decide),
    mms20_past_of_eq _ (by decide), show closes25b.length - 4 = 21 from rfl,
    meanLast_closes25b, meanLast_closes25b_past, if_neg (by norm_num),
    if_pos (by norm_num)]

lemma candidate_closes25b : is_setup_candidate_of closes25b = true := by
  have hm0 : meanLast 20 closes25b ≠ 0 := by rw [meanLast_closes25b]; norm_num
  have hprox : |current_price_of closes25b - meanLast 20 closes25b| /
      meanLast 20 closes25b ≤ THRESHOLD_PROXIMITY := by
    rw [show current_price_of closes25b = 98.2 from rfl, meanLast_closes25b]
    have habs : |(98.2 : ℚ) - 1991 / 20| = 27 / 20 := by
      rw [show (98.2 : ℚ) - 1991 / 20 = -(27 / 20) by norm_num, abs_neg]
      exact abs_of_nonneg (by norm_num)
    rw [habs, THRESHOLD_PROXIMITY]
    norm_num
  have hb : is_close_to_mms20_of closes25b = true := by
    rw [is_close_to_mms20_of, mms20_of_eq _ (by decide), if_neg hm0]
    exact decide_eq_true hprox
  rw [is_setup_candidate_of, hb, trend_closes25b]
  rfl

theorem C6_levels_witness :
    ((20 ≤ df25.bars.length) ∧ trend_of (closesOf df25) = Trend.Alta ∧
      is_setup_candidate_of (closesOf df25) = true ∧
      (((calculate_setup_conditions df25 "PETR4.SA" "t0").2.1.map
          AnalysisResult.entry_price) =
        some (some (round2 (meanLast 9 (closesOf df25) * 1.01))) ∧
      ((calculate_setup_conditions df25 "PETR4.SA" "t0").2.1.map
          AnalysisResult.target_price) =
        some (some (round2 (meanLast 9 (closesOf df25) * 1.01 +
          meanLast 9 (closesOf df25) * 1.01 * 0.05))) ∧
      ((calculate_setup_conditions df25 "PETR4.SA" "t0").2.1.map
          AnalysisResult.stop_loss_price) =
        some (some (round2 (meanLast 9 (closesOf df25) * 1.01 -
          meanLast 9 (closesOf df25) * 1.01 * 0.05))))) ∧
    ((20 ≤ df25b.bars.length) ∧ trend_of (closesOf df25b) = Trend.Baixa ∧
      is_setup_candidate_of (closesOf df25b) = true ∧
      (((calculate_setup_conditions df25b "PETR4.SA" "t0").2.1.map
          AnalysisResult.entry_price) =
        some (some (round2 (meanLast 9 (closesOf df25b) * 0.99))) ∧
      ((calculate_setup_conditions df25b "PETR4.SA" "t0").2.1.map
          AnalysisResult.target_price) =
        some (some (round2 (meanLast 9 (closesOf df25b) * 0.99 -
          meanLast 9 (closesOf df25b) * 0.99 * 0.05))) ∧
      ((calculate_setup_conditions df25b "PETR4.SA" "t0").2.1.map
          AnalysisResult.stop_loss_price) =
        some (some (round2 (meanLast 9 (closesOf df25b) * 0.99 +
          meanLast 9 (closesOf df25b) * 0.99 * 0.05))))) := by
  have hA : trend_of (closesOf df25) = Trend.Alta := trend_closes25
  have hCA : is_setup_candidate_of (closesOf df25) = true := candidate_closes25
  have hB : trend_of (closesOf df25b) = Trend.Baixa := trend_closes25b
  have hCB : is_setup_candidate_of (closesOf df25b) = true := candidate_closes25b
  exact ⟨⟨by decide, hA, hCA, (C6_levels df25 "PETR4.SA" "t0" (by decide)).1 hA hCA⟩,
    ⟨by decide, hB, hCB, (C6_levels df25b "PETR4.SA" "t0" (by decide)).2 hB hCB⟩⟩

/-- Claim C5 (corrected): the analyzer is *not* observation-free on its input:
for at least 20 bars it appends the MMA9 and MMA20 columns to the frame in
place.  The bars themselves are never modified, frames with fewer than 20 bars
are returned untouched, and the analysis outcome is a function of the input
closes alone (together with the ticker and the timestamp argument). -/
theorem C5_frame (df : DataFrame) (t now : String) :
    (calculate_setup_conditions df t now).1.bars = df.bars ∧
      (df.bars.length < 20 → (calculate_setup_conditions df t now).1 = df) ∧
      (20 ≤ df.bars.length →
        (calculate_setup_conditions df t now).1.extraColumns =
          df.extraColumns ++
            [("MMA9", rollingMean 9 (closesOf df)),
             ("MMA20", rollingMean 20 (closesOf df))]) ∧
      (∀ df₂ : DataFrame, closesOf df₂ = closesOf df →
        (calculate_setup_conditions df₂ t now).2 =
          (calculate_setup_conditions df t now).2) := by
  by_cases h : df.bars.length < 20
  · rw [calc_eq_none df t now h]
    refine ⟨rfl, fun _ => rfl, fun h' => absurd h' (by omega), fun df₂ h₂ => ?_⟩
    have hlen2 : df₂.bars.length < 20 := by
      have := congrArg List.length h₂
      rw [closesOf_length, closesOf_length] at this
      omega
    rw [calc_eq_none df₂ t now hlen2]
  · have h20 : 20 ≤ df.bars.length := by omega
    rw [calc_eq_some df t now h20]
    refine ⟨rfl, fun h' => absurd h' h, fun _ => rfl, fun df₂ h₂ => ?_⟩
    have hlen2 : 20 ≤ df₂.bars.length := by
      have := congrArg List.length h₂
      rw [closesOf_length, closesOf_length] at this
      omega
    rw [calc_eq_some df₂ t now hlen2]
    simp only [h₂]

/-- The claim "the sequence (its bars and fields) is unchanged after the
analysis" fails: analysing 20 bars returns a frame that differs from the input
(two moving-average columns were added). -/
theorem C5_frame_cex :
    (calculate_setup_conditions df20 "PETR4.SA" "t0").1 ≠ df20 := by decide

theorem C5_frame_witness :
    ((calculate_setup_conditions df20 "PETR4.SA" "t0").1.bars = df20.bars) ∧
      (20 ≤ df20.bars.length) ∧
      ((calculate_setup_conditions df20 "PETR4.SA" "t0").1.extraColumns =
        df20.extraColumns ++
          [("MMA9", rollingMean 9 (closesOf df20)),
           ("MMA20", rollingMean 20 (closesOf df20))]) ∧
      (closesOf df20v = closesOf df20) ∧
      ((calculate_setup_conditions df20v "PETR4.SA" "t0").2 =
        (calculate_setup_conditions df20 "PETR4.SA" "t0").2) :=
  ⟨(C5_frame df20 "PETR4.SA" "t0").1, by decide,
    (C5_frame df20 "PETR4.SA" "t0").2.2.1 (by decide), by decide,
    (C5_frame df20 "PETR4.SA" "t0").2.2.2 df20v (by decide)⟩

/-- Claim C3 (corrected): a ticker whose fetch (or analysis) raises still
contributes exactly one batch entry, with trend "Erro" and null entry, target
and stop — but its current price, short MA and long MA are 0.0, not null; a
batch of raising and well-formed (≥ 20 bars) tickers yields one entry per
ticker. -/
theorem C3_error_isolation (tickers : List String) (fetch : String → FetchOutcome)
    (now : String) :
    (∀ t ∈ tickers, fetch t = FetchOutcome.raises →
        errorPlaceholder t now ∈ run_batch tickers fetch now) ∧
      (∀ t, (errorPlaceholder t now).trend = Trend.Erro ∧
        (errorPlaceholder t now).current_price = some 0 ∧
        (errorPlaceholder t now).mms9 = some 0 ∧
        (errorPlaceholder t now).mms20 = some 0 ∧
        (errorPlaceholder t now).entry_price = none ∧
        (errorPlaceholder t now).target_price = none ∧
        (errorPlaceholder t now).stop_loss_price = none) ∧
      ((∀ t ∈ tickers, fetch t = FetchOutcome.raises ∨
          ∃ df, fetch t = FetchOutcome.data df ∧ 20 ≤ df.bars.length) →
        (run_batch tickers fetch now).length = tickers.length) := by
  refine ⟨?_, fun t => ⟨rfl, rfl, rfl, rfl, rfl, rfl, rfl⟩, ?_⟩
  · induction tickers with
    | nil => intro t ht; exact absurd ht (List.not_mem_nil t)
    | cons a as ih =>
      intro t ht hraise
      rcases List.mem_cons.mp ht with rfl | hmem
      · rw [run_batch, hraise]
        exact List.mem_append_left _ (List.mem_singleton_self _)
      · rw [run_batch]
        exact List.mem_append_right _ (ih t hmem hraise)
  · induction tickers with
    | nil => intro _; rfl
    | cons a as ih =>
      intro hall
      have hrest := ih fun t ht => hall t (List.mem_cons_of_mem a ht)
      rw [run_batch, List.length_append, hrest, List.length_cons]
      rcases hall a (List.mem_cons_self a as) with hra | ⟨df, hda, hdf⟩
      · rw [hra]
        simp only [List.length_singleton]
        omega
      · have hne : df.bars.isEmpty = false := by
          rw [List.isEmpty_eq_false]
          intro hnil
          rw [hnil] at hdf
          exact absurd hdf (by norm_num)
        rw [hda]
        simp only [hne, Bool.false_eq_true, if_false,
          calc_eq_some df a now hdf, List.length_singleton]
        omega

/-- The claim text "null price fields (current price, short MA, long MA, all null)"
fails: in a 3-ticker batch whose middle fetch raises, the output has 3 entries
and the current price, short MA and long MA of the failed entry are `some 0`
(Python `0.0`), not `None`. -/
theorem C3_error_isolation_cex :
    (run_batch tickers3 fetch3 "t0").length = 3 ∧
      ((run_batch tickers3 fetch3 "t0")[1]?.map fun r =>
          (r.trend, r.current_price, r.mms9, r.mms20)) =
        some (Trend.Erro, some 0, some 0, some 0) ∧
      (some (0 : ℚ) ≠ (none : Option ℚ)) := by
  refine ⟨?_, ?_, by decide⟩ <;> decide

theorem C3_error_isolation_witness :
    ("BBB.SA" ∈ tickers3) ∧ (fetch3 "BBB.SA" = FetchOutcome.raises) ∧
      (errorPlaceholder "BBB.SA" "t0" ∈ run_batch tickers3 fetch3 "t0") ∧
      ((errorPlaceholder "BBB.SA" "t0").trend = Trend.Erro) ∧
      ((errorPlaceholder "BBB.SA" "t0").current_price = some 0) ∧
      ((run_batch tickers3 fetch3 "t0").length = tickers3.length) := by
  refine ⟨by decide, by decide,
    (C3_error_isolation tickers3 fetch3 "t0").1 "BBB.SA" (by decide) (by decide),
    ((C3_error_isolation tickers3 fetch3 "t0").2.1 "BBB.SA").1,
    ((C3_error_isolation tickers3 fetch3 "t0").2.1 "BBB.SA").2.1,
    (C3_error_isolation tickers3 fetch3 "t0").2.2 ?_⟩
  intro t ht
  simp only [tickers3, List.mem_cons, List.not_mem_nil, or_false] at ht
  rcases ht with rfl | rfl | rfl
  · exact Or.inr ⟨df20, rfl, by decide⟩
  · exact Or.inl rfl
  · exact Or.inr ⟨df20, rfl, by decide⟩

/-- Claim C10 (confirmed): every batch entry — computed or placeholder — carries
the configured ticker with its ".SA" suffix removed (for the configured list
`["PETR4.SA"]`, the Python replace-all agrees with suffix removal). -/
theorem C10_ticker_field (fetch : String → FetchOutcome) (now : String)
    (r : AnalysisResult) (hr : r ∈ analyze_ibov_stocks fetch now) :
    "PETR4.SA" ∈ IBOV_TICKERS ∧ r.ticker = stripSuffixSA "PETR4.SA" := by
  refine ⟨by decide, ?_⟩
  have hstrip : stripSuffixSA "PETR4.SA" = replace_SA "PETR4.SA" := by decide
  rw [hstrip]
  rcases hfo : fetch "PETR4.SA" with _ | df
  · simp only [analyze_ibov_stocks, IBOV_TICKERS, run_batch, hfo,
      List.append_nil, List.mem_singleton] at hr
    rw [hr]
    rfl
  · by_cases hemp : df.bars.isEmpty = true
    · simp only [analyze_ibov_stocks, IBOV_TICKERS, run_batch, hfo, hemp,
        if_true, List.append_nil, List.mem_singleton] at hr
      rw [hr]
      rfl
    · have hemp' : df.bars.isEmpty = false := by
        revert hemp; cases df.bars.isEmpty <;> simp
      rcases hres : (calculate_setup_conditions df "PETR4.SA" now).2.1 with _ | res
      · simp only [analyze_ibov_stocks, IBOV_TICKERS, run_batch, hfo, hemp',
          Bool.false_eq_true, if_false, hres, List.append_nil,
          List.not_mem_nil] at hr
      · simp only [analyze_ibov_stocks, IBOV_TICKERS, run_batch, hfo, hemp',
          Bool.false_eq_true, if_false, hres, List.append_nil,
          List.mem_singleton] at hr
        rw [hr]
        exact calc_some_ticker df "PETR4.SA" now res hres

theorem C10_ticker_field_witness :
    (errorPlaceholder "PETR4.SA" "t0" ∈
        analyze_ibov_stocks (fun _ => FetchOutcome.raises) "t0") ∧
      "PETR4.SA" ∈ IBOV_TICKERS ∧
      (errorPlaceholder "PETR4.SA" "t0").ticker = stripSuffixSA "PETR4.SA" :=
  ⟨by decide,
    (C10_ticker_field (fun _ => FetchOutcome.raises) "t0"
      (errorPlaceholder "PETR4.SA" "t0") (by decide)).1,
    (C10_ticker_field (fun _ => FetchOutcome.raises) "t0"
      (errorPlaceholder "PETR4.SA" "t0") (by decide)).2⟩

end TradeSmart
